import Mathlib

/-!
Shallow embedding of the chunked streaming upload / archive scripts of this
repository: jjdffg.py (JFrog uploader), script2.py (memory-efficient zip
builder) and nexus-upload-script.py.  Pure functions are translated directly;
Python float arithmetic is modelled with exact rationals; the retry loops
become fuel-indexed recursions over an abstract per-attempt outcome; the
scheduler's thread-pool / lock behaviour becomes an explicit small-step
transition system.  File paths are modelled as lists of characters (Python
compares strings as sequences of code points).
-/

/-! Constants from jjdffg.py (module level). -/

def MB : ℕ := 1024 * 1024

def MIN_CHUNK_SIZE : ℕ := 1 * MB

def MAX_CHUNK_SIZE : ℕ := 64 * MB

def DEFAULT_CHUNK_SIZE : ℕ := 4 * MB

def MAX_RETRIES : ℕ := 3

/-- jjdffg.py `calculate_optimal_chunk_size(streams)`.  The psutil memory
readings become the two rational arguments; `int(...)` truncation is modelled
by `Int.toNat ∘ Int.floor`, which agrees with Python's truncation toward zero
for the nonnegative values that occur (a negative candidate is clamped up to
`MIN_CHUNK_SIZE` under either rounding).  A `ZeroDivisionError` (streams = 0),
like any psutil failure, takes the `except` branch and returns
`DEFAULT_CHUNK_SIZE`.  Note the source clamps to `[MIN, MAX]` first and only
then rounds down to a whole megabyte. -/
def calculate_optimal_chunk_size (available_mem total_mem : ℚ) (streams : ℕ) : ℕ :=
  if streams = 0 then DEFAULT_CHUNK_SIZE
  else
    let usable_mem : ℚ :=
      if available_mem < total_mem * (1 / 10) then total_mem * (1 / 10) else available_mem
    let usable_mem2 : ℚ := usable_mem * (8 / 10)
    let mem_per_stream : ℚ := usable_mem2 / (streams : ℚ)
    let chunk_size : ℕ := (⌊mem_per_stream * (1 / 4)⌋).toNat
    let clamped : ℕ := max MIN_CHUNK_SIZE (min MAX_CHUNK_SIZE chunk_size)
    clamped / MB * MB

/-- script2.py `get_recommended_chunk_size`: 1% of available memory, clamped
below by 8 KiB (8192 bytes) and above by 64 MiB. -/
def get_recommended_chunk_size (available_memory : ℕ) : ℕ :=
  min (max (available_memory / 100) 8192) (64 * 1024 * 1024)

/-- script2.py `get_optimal_chunk_size(file_size, available_memory)`: the
memory-based recommendation, with the floor raised to 16 MiB for files
strictly larger than 1 GiB and to 4 MiB for files strictly larger than
100 MiB (the source comparisons use `>`). -/
def get_optimal_chunk_size (file_size available_memory : ℕ) : ℕ :=
  let memory_based : ℕ := min (max (available_memory / 100) 8192) (64 * 1024 * 1024)
  if file_size > 1 * 1024 * 1024 * 1024 then max memory_based (16 * 1024 * 1024)
  else if file_size > 100 * 1024 * 1024 then max memory_based (4 * 1024 * 1024)
  else memory_based

/-! Retrying transport: jjdffg.py `JFrogUploader._upload_with_streaming`.
One iteration of the `for retry in range(MAX_RETRIES)` loop either gets an
HTTP response with some status code or raises an exception.  A 200/201
response returns `self._validate_upload(...)`; every other outcome (non-2xx
status, or an exception) sleeps and moves to the next iteration; falling off
the loop returns False.  The checksum-header adaptation mutates only the
request headers, never the control flow, so the per-attempt outcome is
abstracted as a function of the attempt index. -/

/-- Outcome of one PUT attempt: an HTTP response with a status code, or an
exception raised by the request. -/
inductive AttemptOutcome where
  | status (code : ℕ)
  | exc

/-- The success test of the source: `response.status_code in (200, 201)`;
an exception is never a success. -/
def isSuccessStatus : AttemptOutcome → Bool
  | .status c => c == 200 || c == 201
  | .exc => false

/-- The retry loop of `_upload_with_streaming`, with `fuel` remaining loop
iterations and `made` attempts already made.  Returns (result, attempts):
on a 2xx response the result is the validation outcome `validationOk`;
exhausting the loop returns false. -/
def uploadRetryLoop (op : ℕ → AttemptOutcome) (validationOk : Bool) : ℕ → ℕ → Bool × ℕ
  | 0, made => (false, made)
  | fuel + 1, made =>
    if isSuccessStatus (op made) then (validationOk, made + 1)
    else uploadRetryLoop op validationOk fuel (made + 1)

/-- jjdffg.py `_upload_with_streaming`: run the retry loop for `MAX_RETRIES`
iterations starting with zero attempts made. -/
def upload_with_streaming (op : ℕ → AttemptOutcome) (validationOk : Bool) : Bool × ℕ :=
  uploadRetryLoop op validationOk MAX_RETRIES 0

/-! Scheduler: jjdffg.py `JFrogUploader.upload_directory` runs the files
below the large threshold through a ThreadPoolExecutor bounded by
`max_workers`, and only after that executor block completes does it run the
large files one at a time in the main thread, each of which additionally
holds `self.large_file_lock` inside `upload_file`.  This becomes a
small-step transition system over counts of pending / running / finished
items of each class. -/

/-- Instantaneous state of one `upload_directory` run. -/
structure SchedState where
  smallPending : ℕ
  smallRunning : ℕ
  smallDone : ℕ
  largePending : ℕ
  largeRunning : ℕ
  largeDone : ℕ
deriving DecidableEq

/-- Initial state for a list of item sizes: items are classified against the
threshold exactly as in `upload_directory` (`file_size >= self.large_threshold`
is large, otherwise normal); nothing is running yet. -/
def initSchedState (sizes : List ℕ) (large_threshold : ℕ) : SchedState :=
  { smallPending := sizes.countP fun sz => decide (sz < large_threshold)
    smallRunning := 0
    smallDone := 0
    largePending := sizes.countP fun sz => decide (large_threshold ≤ sz)
    largeRunning := 0
    largeDone := 0 }

/-- One observable step of the scheduler.  `startSmall` is the executor
dispatching a queued normal file to a free worker (the pool never runs more
than `maxWorkers` tasks at once); `startLarge` is the main thread beginning a
large upload, which happens only after the executor block has completed
(no normal file pending or running) and while no other large upload holds
`large_file_lock` (the large loop is sequential and the lock is exclusive). -/
inductive SchedStep (maxWorkers : ℕ) : SchedState → SchedState → Prop
  | startSmall (s : SchedState) (hpend : 0 < s.smallPending)
      (hcap : s.smallRunning < maxWorkers) :
      SchedStep maxWorkers s
        { s with smallPending := s.smallPending - 1, smallRunning := s.smallRunning + 1 }
  | finishSmall (s : SchedState) (hrun : 0 < s.smallRunning) :
      SchedStep maxWorkers s
        { s with smallRunning := s.smallRunning - 1, smallDone := s.smallDone + 1 }
  | startLarge (s : SchedState) (hnopend : s.smallPending = 0) (hnorun : s.smallRunning = 0)
      (hlock : s.largeRunning = 0) (hpend : 0 < s.largePending) :
      SchedStep maxWorkers s
        { s with largePending := s.largePending - 1, largeRunning := 1 }
  | finishLarge (s : SchedState) (hrun : 0 < s.largeRunning) :
      SchedStep maxWorkers s
        { s with largeRunning := s.largeRunning - 1, largeDone := s.largeDone + 1 }

/-- States reachable from `init` by scheduler steps. -/
inductive SchedReachable (maxWorkers : ℕ) (init : SchedState) : SchedState → Prop
  | refl : SchedReachable maxWorkers init init
  | step {s t : SchedState} : SchedReachable maxWorkers init s →
      SchedStep maxWorkers s t → SchedReachable maxWorkers init t

/-! Directory upload: jjdffg.py `JFrogUploader.upload_directory`.  After
collecting the files it returns True when there are none; otherwise it sorts
them by size (Python's stable `list.sort`), partitions them against the
threshold, uploads the normal files through the pool and then the large files
sequentially, logging each per-file result, and finally returns True
unconditionally.  The per-file upload result is abstracted as `uploadOk`. -/

/-- A file collected by `upload_directory` (path and size as read at
classification time). -/
structure TransferItem where
  path : String
  size : ℕ

/-- What one `upload_directory` run produces: the per-file results the loop
bodies observe (and log), in dispatch order, and the function's return
value. -/
structure DirUploadRun where
  processed : List (TransferItem × Bool)
  retval : Bool

/-- jjdffg.py `upload_directory`, for an already-collected file list. -/
def upload_directory (files : List TransferItem) (uploadOk : TransferItem → Bool)
    (large_threshold : ℕ) : DirUploadRun :=
  if files.isEmpty then { processed := [], retval := true }
  else
    let sortedFiles := List.insertionSort (fun a b => a.size ≤ b.size) files
    let normal_files := sortedFiles.filter fun f => decide (f.size < large_threshold)
    let large_files := sortedFiles.filter fun f => !decide (f.size < large_threshold)
    { processed := (normal_files.map fun f => (f, uploadOk f))
        ++ (large_files.map fun f => (f, uploadOk f))
      retval := true }

/-! Post-upload validation: jjdffg.py `JFrogUploader._validate_upload` sends a
HEAD request; a non-200 status (or an exception, not modelled separately
since it also yields False) fails, a present Content-Length must equal the
local size, and a missing Content-Length is accepted as-is
("If we can't verify size, just assume it worked"). -/

/-- Result of the HEAD request: status code and optional Content-Length. -/
structure HeadResponse where
  statusCode : ℕ
  contentLength : Option ℕ

/-- jjdffg.py `_validate_upload`. -/
def validate_upload (resp : HeadResponse) (local_file_size : ℕ) : Bool :=
  if resp.statusCode ≠ 200 then false
  else
    match resp.contentLength with
    | some server_file_size => server_file_size == local_file_size
    | none => true

/-! Archive builder: script2.py.  `process_single_file` retries one entry up
to `max_retries = 3` times, sleeping the fixed `retry_delay = 1` second
between consecutive attempts (no sleep after the final failure, which
raises); `zip_with_builtin` scans the source folder skipping `.zip` files,
processes the remaining files in walk order with names sorted inside each
directory, catches any per-entry exception and continues with the next file,
and returns True unless the optional validation pass fails. -/

def ENTRY_MAX_RETRIES : ℕ := 3

def ENTRY_RETRY_DELAY : ℕ := 1

/-- What one `process_single_file` call does: whether the entry was finally
added, how many attempts were made, and the sleep durations between
consecutive attempts. -/
structure EntryAttemptTrace where
  succeeded : Bool
  attempts : ℕ
  delays : List ℕ

/-- The retry loop of `process_single_file` with `fuel` remaining attempts
and `made` attempts already made; `attemptOk i` is whether attempt `i`
succeeds.  The final failed attempt raises without sleeping first. -/
def entryRetryLoop (attemptOk : ℕ → Bool) : ℕ → ℕ → EntryAttemptTrace
  | 0, made => ⟨false, made, []⟩
  | fuel + 1, made =>
    if attemptOk made then ⟨true, made + 1, []⟩
    else if fuel = 0 then ⟨false, made + 1, []⟩
    else
      let t := entryRetryLoop attemptOk fuel (made + 1)
      ⟨t.succeeded, t.attempts, ENTRY_RETRY_DELAY :: t.delays⟩

/-- script2.py `process_single_file`: run the entry retry loop for
`ENTRY_MAX_RETRIES` attempts. -/
def process_single_file (attemptOk : ℕ → Bool) : EntryAttemptTrace :=
  entryRetryLoop attemptOk ENTRY_MAX_RETRIES 0

/-- A file found under the source folder: its path (a character list; Python
compares path strings by code points) and its size in bytes. -/
structure SrcFile where
  path : List Char
  size : ℕ
deriving DecidableEq

/-- ASCII lowering of one character, as `str.lower` acts on the ASCII range
relevant to the `.zip` check. -/
def lowerChar (c : Char) : Char :=
  if 65 ≤ c.toNat ∧ c.toNat ≤ 90 then Char.ofNat (c.toNat + 32) else c

/-- The source's skip test `file_path.lower().endswith('.zip')`. -/
def endsWithZip (p : List Char) : Bool :=
  (p.map lowerChar).reverse.take 4 == ['p', 'i', 'z', '.']

/-- The scan loop of `zip_with_builtin` over one directory: `os.walk` yields
the file names, `sorted(files)` puts them in ascending name order, and any
path ending in `.zip` (case-insensitively) is skipped. -/
def scanSourceFiles (files : List SrcFile) : List SrcFile :=
  (List.insertionSort (fun a b : SrcFile => a.path ≤ b.path) files).filter
    fun f => !endsWithZip f.path

/-- Lookup in the dict `{info.filename: info for info in zf.infolist()}`:
the last entry with a given name wins. -/
def zipLookup (entries : List (List Char × ℕ)) (p : List Char) : Option ℕ :=
  (entries.reverse.find? fun z => z.1 == p).map Prod.snd

/-- The `missing_files` list built by script2.py `quick_validate_zip`: source
files in walk order, skipping `.zip` paths, whose path is not among the zip's
entry names. -/
def validationMissing (sourceFiles : List SrcFile) (zipEntries : List (List Char × ℕ)) :
    List SrcFile :=
  (sourceFiles.filter fun f => !endsWithZip f.path).filter
    fun f => (zipLookup zipEntries f.path).isNone

/-- The `size_mismatches` list of `quick_validate_zip`: non-skipped source
files present in the zip whose recorded entry size differs from the source
size. -/
def validationMismatched (sourceFiles : List SrcFile) (zipEntries : List (List Char × ℕ)) :
    List SrcFile :=
  (sourceFiles.filter fun f => !endsWithZip f.path).filter fun f =>
    match zipLookup zipEntries f.path with
    | some sz => decide (sz ≠ f.size)
    | none => false

/-- script2.py `quick_validate_zip`: fails iff some file is missing or has a
size mismatch. -/
def quick_validate_zip (sourceFiles : List SrcFile) (zipEntries : List (List Char × ℕ)) :
    Bool :=
  (validationMissing sourceFiles zipEntries).isEmpty
    && (validationMismatched sourceFiles zipEntries).isEmpty

/-- script2.py `zip_with_builtin`: scan (name-sorted, `.zip` skipped),
process each file in that order — a file whose `process_single_file` raises
after all retries is caught and the loop continues with the next file — then
return the validation verdict when `validate` is set and True otherwise.
Returns the final return value together with the entries actually added to
the archive.  `attemptOk f i` is whether attempt `i` on file `f` succeeds. -/
def zip_with_builtin (files : List SrcFile) (attemptOk : SrcFile → ℕ → Bool)
    (validate : Bool) : Bool × List (List Char × ℕ) :=
  let all_files := scanSourceFiles files
  let added := all_files.filter fun f => (process_single_file (attemptOk f)).succeeded
  let entries := added.map fun f => (f.path, f.size)
  (if validate then quick_validate_zip files entries else true, entries)

/-! Order instances used to state sortedness of the scan order. -/

instance : IsTotal SrcFile fun a b => a.path ≤ b.path :=
  ⟨fun a b => le_total a.path b.path⟩

instance : IsTrans SrcFile fun a b => a.path ≤ b.path :=
  ⟨fun _ _ _ h1 h2 => le_trans h1 h2⟩

/-! Theorems. -/

/-- Clamping to `[MIN_CHUNK_SIZE, MAX_CHUNK_SIZE]` and then rounding down to
a whole megabyte always lands in `[MIN_CHUNK_SIZE, MAX_CHUNK_SIZE]`, whatever
the candidate value was. -/
theorem clamp_round_bounds (x : ℕ) :
    MIN_CHUNK_SIZE ≤ max MIN_CHUNK_SIZE (min MAX_CHUNK_SIZE x) / MB * MB ∧
      max MIN_CHUNK_SIZE (min MAX_CHUNK_SIZE x) / MB * MB ≤ MAX_CHUNK_SIZE := by
  set c := max MIN_CHUNK_SIZE (min MAX_CHUNK_SIZE x) with hc
  have hMB : 0 < MB := by norm_num [MB]
  have hlo : MB ≤ c := by
    rw [hc]
    calc MB = MIN_CHUNK_SIZE := by norm_num [MIN_CHUNK_SIZE]
      _ ≤ _ := le_max_left _ _
  have hhi : c ≤ MAX_CHUNK_SIZE := by
    rcases max_choice MIN_CHUNK_SIZE (min MAX_CHUNK_SIZE x) with h | h
    · rw [hc, h]; norm_num [MIN_CHUNK_SIZE, MAX_CHUNK_SIZE, MB]
    · rw [hc, h]; exact min_le_left _ _
  constructor
  · have h1 : 1 ≤ c / MB := (Nat.one_le_div_iff hMB).2 hlo
    calc MIN_CHUNK_SIZE = 1 * MB := by norm_num [MIN_CHUNK_SIZE]
      _ ≤ c / MB * MB := Nat.mul_le_mul_right _ h1
  · exact le_trans (Nat.div_mul_le_self _ _) hhi

/-- C1 (amended): for every memory reading and stream count the primary
advisor `calculate_optimal_chunk_size` returns a value in the closed interval
[MIN_CHUNK_SIZE = 1 MiB, MAX_CHUNK_SIZE = 64 MiB], regardless of the computed
intermediate value; the companion memory-based recommendation
`get_recommended_chunk_size` is clamped to the wider interval
[8 KiB, 64 MiB], not to [1 MiB, 64 MiB]. -/
theorem chunk_advisors_clamped_amended (a t : ℚ) (s : ℕ) (m : ℕ) :
    (MIN_CHUNK_SIZE ≤ calculate_optimal_chunk_size a t s ∧
        calculate_optimal_chunk_size a t s ≤ MAX_CHUNK_SIZE) ∧
      (8192 ≤ get_recommended_chunk_size m ∧
        get_recommended_chunk_size m ≤ MAX_CHUNK_SIZE) := by
  constructor
  · unfold calculate_optimal_chunk_size
    split
    · constructor
      · norm_num [DEFAULT_CHUNK_SIZE, MIN_CHUNK_SIZE, MB]
      · norm_num [DEFAULT_CHUNK_SIZE, MAX_CHUNK_SIZE, MB]
    · exact clamp_round_bounds _
  · constructor
    · exact le_min (le_max_right _ _) (by norm_num)
    · unfold get_recommended_chunk_size
      have h := min_le_right (max (m / 100) 8192) (64 * 1024 * 1024)
      calc min (max (m / 100) 8192) (64 * 1024 * 1024) ≤ 64 * 1024 * 1024 := h
        _ ≤ MAX_CHUNK_SIZE := by norm_num [MAX_CHUNK_SIZE, MB]

/-- C1 (counterexample): with 0 bytes of available memory the companion
recommendation returns 8192 bytes = 8 KiB, strictly below MIN_CHUNK_SIZE =
1 MiB, so the interval [MIN_CHUNK_SIZE, MAX_CHUNK_SIZE] claimed for it
fails. -/
theorem recommended_chunk_below_min_counterexample :
    get_recommended_chunk_size 0 = 8192 ∧ get_recommended_chunk_size 0 < MIN_CHUNK_SIZE := by
  constructor
  · decide
  · norm_num [get_recommended_chunk_size, MIN_CHUNK_SIZE, MB]

/-- C6 (counterexample): at a file size of exactly 1 GiB the source's strict
comparison `file_size > 1024**3` fails, so with no available memory the
advised chunk is only 4 MiB, below the claimed 16 MiB floor; at exactly
100 MiB both strict comparisons fail and the advised chunk is 8 KiB, below
the claimed 4 MiB floor. -/
theorem large_file_floor_boundary_counterexample :
    get_optimal_chunk_size (1024 * 1024 * 1024) 0 = 4 * 1024 * 1024 ∧
      4 * 1024 * 1024 < 16 * 1024 * 1024 ∧
      get_optimal_chunk_size (100 * 1024 * 1024) 0 = 8192 ∧
      8192 < 4 * 1024 * 1024 := by
  refine ⟨by decide, by norm_num, by decide, by norm_num⟩

/-- C6 (amended): the companion variant raises the floor for large files with
strict thresholds: every file strictly larger than 1 GiB gets a chunk size of
at least 16 MiB, and every file strictly larger than 100 MiB gets at least
4 MiB. -/
theorem large_file_floor_strict_amended (fs m : ℕ) :
    (1024 * 1024 * 1024 < fs → 16 * 1024 * 1024 ≤ get_optimal_chunk_size fs m) ∧
      (100 * 1024 * 1024 < fs → 4 * 1024 * 1024 ≤ get_optimal_chunk_size fs m) := by
  simp only [get_optimal_chunk_size]
  constructor
  · intro h
    rw [if_pos (by simpa using h)]
    exact le_max_right _ _
  · intro h
    split_ifs
    · exact le_trans (by norm_num) (le_max_right _ _)
    · exact le_max_right _ _

/-- C6 (witness): at one byte over 1 GiB with no available memory both
amended floors hold concretely. -/
theorem large_file_floor_strict_amended_witness :
    16 * 1024 * 1024 ≤ get_optimal_chunk_size (1024 * 1024 * 1024 + 1) 0 ∧
      4 * 1024 * 1024 ≤ get_optimal_chunk_size (1024 * 1024 * 1024 + 1) 0 :=
  ⟨(large_file_floor_strict_amended (1024 * 1024 * 1024 + 1) 0).1 (by norm_num),
    (large_file_floor_strict_amended (1024 * 1024 * 1024 + 1) 0).2 (by norm_num)⟩

/-- C8 (counterexample): when the HEAD response carries no Content-Length the
validator returns the same plain True it returns for a fully size-verified
upload, so the caller cannot distinguish the degraded (existence-only)
validation from full validation. -/
theorem validation_partial_indistinguishable_counterexample :
    validate_upload ⟨200, none⟩ 5 = validate_upload ⟨200, some 5⟩ 5 ∧
      validate_upload ⟨200, none⟩ 5 = true := by
  refine ⟨by decide, by decide⟩

/-- C8 (amended): a reported size that differs from the local size is a hard
failure, and a matching size validates; but when the remote reports no size
the validator degrades to existence-only and still returns the same plain
True, so the weaker validation is not distinguished in the result. -/
theorem validation_size_policy_amended (s l : ℕ) (h : s ≠ l) :
    validate_upload ⟨200, some s⟩ l = false ∧
      validate_upload ⟨200, none⟩ l = true ∧
      validate_upload ⟨200, some l⟩ l = true := by
  refine ⟨?_, rfl, ?_⟩
  · simp [validate_upload, h]
  · simp [validate_upload]

/-- C8 (witness): the amended statement at server size 5 against local size
3. -/
theorem validation_size_policy_amended_witness :
    validate_upload ⟨200, some 5⟩ 3 = false ∧
      validate_upload ⟨200, none⟩ 3 = true ∧
      validate_upload ⟨200, some 3⟩ 3 = true :=
  validation_size_policy_amended 5 3 (by decide)

/-- C9: given a directory with zero collected files, `upload_directory`
returns success (True) and performs no per-file upload at all. -/
theorem upload_directory_empty_success (uploadOk : TransferItem → Bool) (th : ℕ) :
    (upload_directory [] uploadOk th).processed = [] ∧
      (upload_directory [] uploadOk th).retval = true :=
  ⟨rfl, rfl⟩

/-- When every attempt the remaining fuel allows fails, the retry loop
returns failure after consuming all the fuel. -/
theorem uploadRetryLoop_exhaust (op : ℕ → AttemptOutcome) (v : Bool) :
    ∀ fuel made, (∀ i, i < fuel → isSuccessStatus (op (made + i)) = false) →
      uploadRetryLoop op v fuel made = (false, made + fuel) := by
  intro fuel
  induction fuel with
  | zero => intro made _; simp [uploadRetryLoop]
  | succ n ih =>
    intro made h
    have h0 : isSuccessStatus (op made) = false := by simpa using h 0 (Nat.succ_pos n)
    have hrest : ∀ i, i < n → isSuccessStatus (op (made + 1 + i)) = false := by
      intro i hi
      have e : made + 1 + i = made + (i + 1) := by omega
      rw [e]
      exact h (i + 1) (by omega)
    have hstep : uploadRetryLoop op v (n + 1) made = uploadRetryLoop op v n (made + 1) := by
      simp [uploadRetryLoop, h0]
    rw [hstep, ih (made + 1) hrest]
    exact congrArg (Prod.mk false) (by omega)

/-- When the first `k` attempts fail and attempt `k` succeeds, with enough
fuel left, the retry loop returns the validation outcome after exactly
`k + 1` attempts. -/
theorem uploadRetryLoop_success (op : ℕ → AttemptOutcome) (v : Bool) :
    ∀ fuel made k, k < fuel → (∀ i, i < k → isSuccessStatus (op (made + i)) = false) →
      isSuccessStatus (op (made + k)) = true →
      uploadRetryLoop op v fuel made = (v, made + k + 1) := by
  intro fuel
  induction fuel with
  | zero => intro made k hk; exact absurd hk (Nat.not_lt_zero k)
  | succ n ih =>
    intro made k hk hfail hsucc
    cases k with
    | zero =>
      have h0 : isSuccessStatus (op made) = true := by simpa using hsucc
      simp [uploadRetryLoop, h0]
    | succ m =>
      have h0 : isSuccessStatus (op made) = false := by
        simpa using hfail 0 (Nat.succ_pos m)
      have hfail' : ∀ i, i < m → isSuccessStatus (op (made + 1 + i)) = false := by
        intro i hi
        have e : made + 1 + i = made + (i + 1) := by omega
        rw [e]
        exact hfail (i + 1) (by omega)
      have hsucc' : isSuccessStatus (op (made + 1 + m)) = true := by
        have e : made + 1 + m = made + (m + 1) := by omega
        rw [e]
        exact hsucc
      have hstep : uploadRetryLoop op v (n + 1) made = uploadRetryLoop op v n (made + 1) := by
        simp [uploadRetryLoop, h0]
      rw [hstep, ih (made + 1) m (by omega) hfail' hsucc']
      exact congrArg (Prod.mk v) (by omega)

/-- C2: for the retrying transport with MAX_RETRIES attempts (and the
post-success validation passing, which is what the source returns on a 2xx
response): if the per-attempt operation fails `k < MAX_RETRIES` times and
then succeeds, `_upload_with_streaming` returns success after exactly `k + 1`
attempts; if the operation fails on every attempt, it returns failure after
exactly MAX_RETRIES attempts. -/
theorem retry_transport_attempt_counts (op op2 : ℕ → AttemptOutcome) (k : ℕ) (v : Bool)
    (hk : k < MAX_RETRIES)
    (hfail : ∀ i, i < k → isSuccessStatus (op i) = false)
    (hsucc : isSuccessStatus (op k) = true)
    (hall : ∀ i, i < MAX_RETRIES → isSuccessStatus (op2 i) = false) :
    upload_with_streaming op true = (true, k + 1) ∧
      upload_with_streaming op2 v = (false, MAX_RETRIES) := by
  constructor
  · have h := uploadRetryLoop_success op true MAX_RETRIES 0 k hk
      (by intro i hi; simpa using hfail i hi) (by simpa using hsucc)
    simpa [upload_with_streaming] using h
  · have h := uploadRetryLoop_exhaust op2 v MAX_RETRIES 0
      (by intro i hi; simpa using hall i hi)
    simpa [upload_with_streaming] using h

/-- C2 (witness): the spec's own scenarios — a transport returning HTTP 503
twice and then 201 succeeds with 3 attempts, and a transport always returning
HTTP 500 is exhausted after MAX_RETRIES attempts. -/
theorem retry_transport_attempt_counts_witness :
    upload_with_streaming
        (fun i => if i < 2 then AttemptOutcome.status 503 else AttemptOutcome.status 201)
        true = (true, 3) ∧
      upload_with_streaming (fun _ => AttemptOutcome.status 500) true =
        (false, MAX_RETRIES) :=
  retry_transport_attempt_counts
    (fun i => if i < 2 then AttemptOutcome.status 503 else AttemptOutcome.status 201)
    (fun _ => AttemptOutcome.status 500) 2 true (by decide) (by decide) (by decide) (by decide)

/-- C3: in every reachable state of a scheduler run over any mix of item
sizes, at most one large item (size at or above the threshold) is in flight,
and the number of concurrently executing small items never exceeds
`maxWorkers`. -/
theorem scheduler_concurrency_invariant (maxWorkers : ℕ) (sizes : List ℕ)
    (large_threshold : ℕ) (s : SchedState)
    (h : SchedReachable maxWorkers (initSchedState sizes large_threshold) s) :
    s.largeRunning ≤ 1 ∧ s.smallRunning ≤ maxWorkers := by
  induction h with
  | refl => exact ⟨Nat.zero_le 1, Nat.zero_le maxWorkers⟩
  | step hr hstep ih =>
    cases hstep with
    | startSmall hpend hcap => exact ⟨ih.1, hcap⟩
    | finishSmall hrun => exact ⟨ih.1, le_trans (Nat.sub_le _ _) ih.2⟩
    | startLarge h1 h2 h3 hpend => exact ⟨le_refl 1, ih.2⟩
    | finishLarge hrun => exact ⟨le_trans (Nat.sub_le _ _) ih.1, ih.2⟩

/-- C3 (witness): the spec's scenario — items of 5 and 200 (threshold 100,
3 workers); after the small item is dispatched and finishes and the large
item starts, the reached state satisfies both concurrency bounds. -/
theorem scheduler_concurrency_invariant_witness :
    (⟨0, 0, 1, 0, 1, 0⟩ : SchedState).largeRunning ≤ 1 ∧
      (⟨0, 0, 1, 0, 1, 0⟩ : SchedState).smallRunning ≤ 3 := by
  have h0 : SchedReachable 3 (initSchedState [5, 200] 100) ⟨1, 0, 0, 1, 0, 0⟩ :=
    SchedReachable.refl
  have h1 : SchedReachable 3 (initSchedState [5, 200] 100) ⟨0, 1, 0, 1, 0, 0⟩ :=
    SchedReachable.step h0 (SchedStep.startSmall ⟨1, 0, 0, 1, 0, 0⟩ (by decide) (by decide))
  have h2 : SchedReachable 3 (initSchedState [5, 200] 100) ⟨0, 0, 1, 1, 0, 0⟩ :=
    SchedReachable.step h1 (SchedStep.finishSmall ⟨0, 1, 0, 1, 0, 0⟩ (by decide))
  have h3 : SchedReachable 3 (initSchedState [5, 200] 100) ⟨0, 0, 1, 0, 1, 0⟩ :=
    SchedReachable.step h2 (SchedStep.startLarge ⟨0, 0, 1, 1, 0, 0⟩ rfl rfl rfl (by decide))
  exact scheduler_concurrency_invariant 3 [5, 200] 100 ⟨0, 0, 1, 0, 1, 0⟩ h3

/-- C4 (amended): `upload_directory` dispatches every collected file exactly
once — each input file appears in the processed results, so no single file's
failure aborts the run — and a per-file success/failure result is determined
(and logged) for each; but the function's return value is the constant
boolean True, not a per-item outcome list. -/
theorem upload_directory_processes_all_amended (files : List TransferItem)
    (uploadOk : TransferItem → Bool) (th : ℕ) :
    ((upload_directory files uploadOk th).processed.map Prod.fst).Perm files ∧
      (upload_directory files uploadOk th).retval = true := by
  constructor
  · unfold upload_directory
    split
    · next hempty =>
        have : files = [] := by simpa using hempty
        subst this
        exact List.Perm.refl _
    · simp only [List.map_append, List.map_map]
      have hid : (Prod.fst ∘ fun f : TransferItem => (f, uploadOk f)) = id := rfl
      rw [hid, List.map_id, List.map_id]
      have hperm := List.filter_append_perm
        (fun f : TransferItem => decide (f.size < th))
        (List.insertionSort (fun a b => a.size ≤ b.size) files)
      exact hperm.trans (List.perm_insertionSort _ files)
  · unfold upload_directory
    split
    · rfl
    · rfl

/-- C4 (counterexample): a run over one file whose upload fails returns the
very same value True as the run in which the upload succeeds — the
directory-level return value is a single boolean carrying no per-item
success/failure outcome, contrary to the claim that a complete outcome list
distinguishing successes from failures is returned. -/
theorem upload_directory_retval_counterexample :
    (upload_directory [⟨"a", 5⟩] (fun _ => false) 100).retval = true ∧
      (upload_directory [⟨"a", 5⟩] (fun _ => false) 100).retval =
        (upload_directory [⟨"a", 5⟩] (fun _ => true) 100).retval :=
  ⟨rfl, rfl⟩

/-- The entry retry loop never makes more attempts than its fuel allows, and
every sleep between consecutive attempts has the fixed duration
ENTRY_RETRY_DELAY (no exponential growth). -/
theorem entryRetryLoop_bounds (attemptOk : ℕ → Bool) :
    ∀ fuel made, (entryRetryLoop attemptOk fuel made).attempts ≤ made + fuel ∧
      ((entryRetryLoop attemptOk fuel made).delays.all
        fun d => d == ENTRY_RETRY_DELAY) = true := by
  intro fuel
  induction fuel with
  | zero => intro made; exact ⟨by simp [entryRetryLoop], by simp [entryRetryLoop]⟩
  | succ n ih =>
    intro made
    by_cases h : attemptOk made
    · constructor
      · simp [entryRetryLoop, h]
      · simp [entryRetryLoop, h]
    · by_cases hn : n = 0
      · subst hn
        constructor
        · simp [entryRetryLoop, h]
        · simp [entryRetryLoop, h]
      · have hrec := ih (made + 1)
        constructor
        · have : (entryRetryLoop attemptOk (n + 1) made).attempts =
              (entryRetryLoop attemptOk n (made + 1)).attempts := by
            simp [entryRetryLoop, h, hn]
          rw [this]
          omega
        · have : (entryRetryLoop attemptOk (n + 1) made).delays =
              ENTRY_RETRY_DELAY :: (entryRetryLoop attemptOk n (made + 1)).delays := by
            simp [entryRetryLoop, h, hn]
          rw [this]
          simp [hrec.2]

/-- C5 (amended): a failing entry is retried up to the fixed bound
ENTRY_MAX_RETRIES = 3 with the short fixed delay ENTRY_RETRY_DELAY = 1 second
between attempts (not exponential); but if the entry still cannot be added,
the archive build does not abort: `zip_with_builtin` catches the error,
continues with the remaining files, and (without the optional validation
pass) still returns success. -/
theorem entry_retry_fixed_delay_amended (attemptOk : ℕ → Bool) (files : List SrcFile)
    (att : SrcFile → ℕ → Bool) :
    (process_single_file attemptOk).attempts ≤ ENTRY_MAX_RETRIES ∧
      ((process_single_file attemptOk).delays.all
        fun d => d == ENTRY_RETRY_DELAY) = true ∧
      (zip_with_builtin files att false).1 = true := by
  refine ⟨?_, ?_, rfl⟩
  · have h := (entryRetryLoop_bounds attemptOk ENTRY_MAX_RETRIES 0).1
    simpa [process_single_file] using h
  · exact (entryRetryLoop_bounds attemptOk ENTRY_MAX_RETRIES 0).2

/-- C5 (counterexample): an entry whose reads always fail is never added, yet
the archive build over it and a healthy second entry completes, produces the
partial archive containing only the second entry, and reports success —
contradicting the claim that the entire build aborts and is reported as
failed, and that a partially-written archive is never returned as success. -/
theorem archive_build_partial_success_counterexample :
    (process_single_file fun _ => false).succeeded = false ∧
      (zip_with_builtin [⟨['a'], 5⟩, ⟨['b'], 7⟩]
          (fun f _ => decide (f.path = ['b'])) false).1 = true ∧
      (zip_with_builtin [⟨['a'], 5⟩, ⟨['b'], 7⟩]
          (fun f _ => decide (f.path = ['b'])) false).2 = [(['b'], 7)] := by
  exact ⟨rfl, rfl, by decide⟩

/-- C7 (counterexample): two files in one directory whose name order differs
from their size order are written in name order — the archive write order is
[10, 1] by size, which is not ascending. -/
theorem archive_write_order_counterexample :
    ((zip_with_builtin [⟨['a'], 10⟩, ⟨['b'], 1⟩] (fun _ _ => true) false).2.map
        Prod.snd) = [10, 1] ∧
      ¬ List.Sorted (· ≤ ·) ([10, 1] : List ℕ) :=
  ⟨by decide, by decide⟩

/-- C7 (amended): the archive builder writes the entries of a directory in
ascending order of file name (the `sorted(files)` of the scan loop), not in
ascending order of size. -/
theorem archive_write_order_by_name_amended (files : List SrcFile) :
    List.Sorted (fun a b : SrcFile => a.path ≤ b.path) (scanSourceFiles files) := by
  unfold scanSourceFiles
  exact List.Pairwise.filter _ (List.sorted_insertionSort _ files)

/-- C10: every entry actually written by the archive builder has a path not
ending in `.zip` (so an output archive placed inside the source folder is
never added to itself), and the validation pass skips `.zip` paths, so its
missing-files list never contains one (an output archive inside the source
folder is never reported missing), for every source tree and every zip
directory. -/
theorem zip_exclusion_consistency (files : List SrcFile) (att : SrcFile → ℕ → Bool)
    (v : Bool) (zipEntries : List (List Char × ℕ)) :
    (((zip_with_builtin files att v).2.all fun e => !endsWithZip e.1) = true) ∧
      (((validationMissing files zipEntries).all fun f => !endsWithZip f.path) = true) := by
  constructor
  · simp only [zip_with_builtin, List.all_eq_true, List.mem_map]
    rintro e ⟨f, hf, rfl⟩
    have hscan : f ∈ scanSourceFiles files := (List.mem_filter.mp hf).1
    unfold scanSourceFiles at hscan
    exact (List.mem_filter.mp hscan).2
  · simp only [validationMissing, List.all_eq_true, List.mem_filter]
    rintro f ⟨⟨hmem, hzip⟩, hnone⟩
    exact hzip
